import Mathlib

/-!
Shallow embedding of the Life-Certificates verification service
(`internal/service/verification_service.go`, the participant service,
`internal/repository/fr_identity_repository.go` and the domain types).

Stores are lists of records; `gorm` unique indexes are modelled as explicit
checks in the create operations; external ports (liveness checker, FR Core
recognition engine) are oracle parameters; `float64` scores are modelled as
rationals; `time.Time` values as natural-number instants; `uuid.NewString`
results as oracle parameters.  Every service operation additionally returns
the post-state store and a trace of outbound port calls and identity-store
label lookups, so that claims about "no call was made" are statable.
-/

namespace LifeCert

/-- Model of the whitespace class used by Go `strings.TrimSpace`
(ASCII portion of `unicode.IsSpace`). -/
def isGoSpace (c : Char) : Bool :=
  c = ' ' || c = '\t' || c = '\n' || c = '\x0b' || c = '\x0c' || c = '\r'

/-- Model of Go `strings.TrimSpace`. -/
def trimSpace (s : String) : String :=
  ⟨((s.data.dropWhile isGoSpace).reverse.dropWhile isGoSpace).reverse⟩

/-- `domain.LifeCertificateStatus` is a string type in the source. -/
def statusValid : String := "VALID"

def statusInvalid : String := "INVALID"

def statusReview : String := "REVIEW"

/-- `domain.Participant` (timestamps as naturals). Unique indexes exist on
`ID`, `NIK`, `FRLabel` and `FRExternalRef`. -/
structure Participant where
  id : String
  nik : String
  name : String
  frLabel : String
  frExternalRef : String
  createdAt : Nat
  updatedAt : Nat
deriving DecidableEq, Repr

/-- `domain.FRIdentity`: maps an FR Core label to a participant. `Label` is
the primary key. -/
structure FRIdentity where
  label : String
  participantID : String
  externalRef : String
  createdAt : Nat
deriving DecidableEq, Repr

/-- `domain.LifeCertificate`: one verification attempt record. -/
structure LifeCertificate where
  id : String
  participantID : String
  selfiePath : String
  status : String
  distance : Option ℚ
  similarity : Option ℚ
  verifiedAt : Nat
  notes : Option String
deriving DecidableEq, Repr

/-- The persistent state: the three tables used by the services. -/
structure Store where
  participants : List Participant
  frIdentities : List FRIdentity
  certificates : List LifeCertificate
deriving DecidableEq, Repr

/-- `participantRepository.GetByID`: `First(&p, "id = ?", id)`,
record-not-found mapped to `nil`. -/
def participantsGetByID (s : Store) (id : String) : Option Participant :=
  s.participants.find? (fun p => p.id = id)

/-- `participantRepository.GetByNIK`. -/
def participantsGetByNIK (s : Store) (nik : String) : Option Participant :=
  s.participants.find? (fun p => p.nik = nik)

/-- `participantRepository.Create`: plain insert; the unique indexes on
`id`, `nik`, `fr_label`, `fr_external_ref` make a duplicate insert fail. -/
def participantsCreate (s : Store) (p : Participant) : Except String Store :=
  if s.participants.any (fun q =>
      q.id = p.id || q.nik = p.nik || q.frLabel = p.frLabel ||
      q.frExternalRef = p.frExternalRef) then
    Except.error "create participant: duplicate key"
  else
    Except.ok { s with participants := s.participants ++ [p] }

/-- `participantRepository.Update`: updates `nik`, `name`, `updated_at` of
the rows with the given id. -/
def participantsUpdate (s : Store) (p : Participant) : Store :=
  { s with participants := s.participants.map (fun q =>
      if q.id = p.id then { q with nik := p.nik, name := p.name, updatedAt := p.updatedAt }
      else q) }

/-- `participantRepository.Delete`: delete the rows with the given id. -/
def participantsDelete (s : Store) (id : String) : Store :=
  { s with participants := s.participants.filter (fun p => ¬ p.id = id) }

/-- `frIdentityRepository.GetByLabel`, record-not-found mapped to `nil`. -/
def frIdentitiesGetByLabel (s : Store) (label : String) : Option FRIdentity :=
  s.frIdentities.find? (fun i => i.label = label)

/-- `frIdentityRepository.Create`: fills `CreatedAt` when zero and inserts
with `clause.OnConflict{DoNothing: true}` — an existing row with the same
label is left untouched and no error is raised. -/
def frIdentitiesCreate (s : Store) (now : Nat) (i : FRIdentity) : Store :=
  let i := if i.createdAt = 0 then { i with createdAt := now } else i
  if s.frIdentities.any (fun j => j.label = i.label) then s
  else { s with frIdentities := s.frIdentities ++ [i] }

/-- `frIdentityRepository.DeleteByParticipantID`. -/
def frIdentitiesDeleteByParticipantID (s : Store) (pid : String) : Store :=
  { s with frIdentities := s.frIdentities.filter (fun i => ¬ i.participantID = pid) }

/-- `lifeCertificateRepository.Create`: plain insert; the primary key on
`id` makes a duplicate id fail. -/
def certificatesCreate (s : Store) (c : LifeCertificate) : Except String Store :=
  if s.certificates.any (fun d => d.id = c.id) then
    Except.error "create life certificate: duplicate key"
  else
    Except.ok { s with certificates := s.certificates ++ [c] }

/-- `lifeCertificateRepository.GetLatestByParticipant`: the record of the
participant with the greatest `verified_at` (`Order("verified_at desc")`
then `First`). -/
def certificatesGetLatestByParticipant (s : Store) (pid : String) : Option LifeCertificate :=
  (s.certificates.filter (fun c => c.participantID = pid)).foldl
    (fun acc c =>
      match acc with
      | none => some c
      | some b => if b.verifiedAt < c.verifiedAt then some c else some b)
    none

/-- `lifeCertificateRepository.DeleteByParticipant`. -/
def certificatesDeleteByParticipant (s : Store) (pid : String) : Store :=
  { s with certificates := s.certificates.filter (fun c => ¬ c.participantID = pid) }

/-- `frcore.RecognizeRequest` response: `{label, similarity, distance?}`. -/
structure RecognizeResponse where
  label : String
  similarity : ℚ
  distance : Option ℚ
deriving DecidableEq, Repr

/-- `frcore.UploadRequest` as sent to the engine's binding operation. -/
structure UploadRequest where
  label : String
  externalRef : String
  imageName : String
  image : List Nat
deriving DecidableEq, Repr

/-- `frcore` upload response: `{id, label, externalRef}`. -/
structure UploadResponse where
  id : String
  label : String
  externalRef : String
deriving DecidableEq, Repr

/-- Observable events: outbound port calls plus identity-store label
lookups performed by the verification flow. -/
inductive TraceEvent where
  | livenessEval : TraceEvent
  | recognizeCall : TraceEvent
  | uploadFace (req : UploadRequest) : TraceEvent
  | identityLookup (label : String) : TraceEvent
deriving DecidableEq, Repr

/-- Service-level errors returned by the Go services. -/
inductive SvcError where
  | validation (msg : String) : SvcError
  | participantExists : SvcError
  | participantNotFound : SvcError
  | livenessEvaluation (msg : String) : SvcError
  | recognitionFailed (msg : String) : SvcError
  | storeFailed (msg : String) : SvcError
deriving DecidableEq, Repr

/-- `liveness.NoopChecker.Evaluate`: `(false, "liveness_disabled", nil)`
when disabled, `(true, "ok", nil)` when enabled. -/
def NoopCheckerEvaluate (enabled : Bool) : Except String (Bool × String) :=
  if !enabled then Except.ok (false, "liveness_disabled")
  else Except.ok (true, "ok")

/-- The two thresholds injected into `VerificationService`
(defaults `0.6` and `75` in `config.Load`). -/
structure VerifyConfig where
  distanceThreshold : ℚ
  similarityThreshold : ℚ
deriving DecidableEq, Repr

/-- `service.VerifyInput`. -/
structure VerifyInput where
  participantID : String
  imageBytes : List Nat
  originalFilename : String
deriving DecidableEq, Repr

/-- `service.VerifyOutput` (status is the string status type). -/
structure VerifyOutput where
  participantID : String
  status : String
  distance : Option ℚ
  similarity : Option ℚ
  verifiedAt : Nat
deriving DecidableEq, Repr

/-- Oracle inputs consumed by one `Verify` run: the liveness verdict, the
recognition response (used only when liveness passes), the generated
record id and the clock reading. -/
structure VerifyEnv where
  liveness : Except String (Bool × String)
  recognize : Except String RecognizeResponse
  certID : String
  now : Nat
deriving Repr

/-- Result of a `Verify` run: the returned value or error, the post-state
store, and the trace of port calls and label lookups. -/
structure VerifyResult where
  result : Except SvcError VerifyOutput
  store : Store
  trace : List TraceEvent
deriving Repr

/-- `distanceOk` of `VerificationService.Verify`: present and at most the
distance threshold, false when absent. -/
def distanceOkOf (cfg : VerifyConfig) (resp : RecognizeResponse) : Bool :=
  match resp.distance with
  | some d => decide (d ≤ cfg.distanceThreshold)
  | none => false

/-- `similarityOk` of `VerificationService.Verify`: similarity at least the
similarity threshold. -/
def similarityOkOf (cfg : VerifyConfig) (resp : RecognizeResponse) : Bool :=
  decide (cfg.similarityThreshold ≤ resp.similarity)

/-- Identity resolution of `VerificationService.Verify` (the `matchLabel`
block): trim the label; when non-empty look it up; a found row matches iff
it is owned by the requesting participant; an absent row with high
confidence is bound to the participant as a new alias.  Returns the
computed `matchLabel`, the updated store, and the lookups performed. -/
def resolveIdentity (s : Store) (p : Participant) (cfg : VerifyConfig)
    (resp : RecognizeResponse) (now : Nat) : Bool × Store × List TraceEvent :=
  let label := trimSpace resp.label
  if label = "" then (false, s, [])
  else
    match frIdentitiesGetByLabel s label with
    | some identity => (identity.participantID = p.id, s, [TraceEvent.identityLookup label])
    | none =>
      if similarityOkOf cfg resp && (resp.distance.isNone || distanceOkOf cfg resp) then
        (true,
         frIdentitiesCreate s now
           { label := label, participantID := p.id,
             externalRef := p.frExternalRef, createdAt := 0 },
         [TraceEvent.identityLookup label])
      else (false, s, [TraceEvent.identityLookup label])

/-- The `matchLabel` value computed by `VerificationService.Verify`. -/
def matchLabelOf (s : Store) (p : Participant) (cfg : VerifyConfig)
    (resp : RecognizeResponse) (now : Nat) : Bool :=
  (resolveIdentity s p cfg resp now).1

/-- Final status decision of `VerificationService.Verify` (line 152):
`VALID` exactly when `matchLabel && (distanceOk || (!distanceOk &&
distance == nil && similarityOk))`, otherwise the initial `INVALID`. -/
def decideStatus (matchLabel distanceOk similarityOk : Bool)
    (distance : Option ℚ) : String :=
  if matchLabel && (distanceOk || (!distanceOk && distance.isNone && similarityOk)) then
    statusValid
  else statusInvalid

/-- `VerificationService.Verify`.  The original filename only feeds the
recognition request, which the oracle `env.recognize` already fixes. -/
def Verify (s : Store) (cfg : VerifyConfig) (env : VerifyEnv)
    (input : VerifyInput) : VerifyResult :=
  let participantID := trimSpace input.participantID
  if participantID = "" then
    ⟨Except.error (SvcError.validation "participant_id is required"), s, []⟩
  else if input.imageBytes.isEmpty then
    ⟨Except.error (SvcError.validation "image payload is required"), s, []⟩
  else
    match participantsGetByID s participantID with
    | none => ⟨Except.error SvcError.participantNotFound, s, []⟩
    | some participant =>
      let now := env.now
      match env.liveness with
      | Except.error e =>
        ⟨Except.error (SvcError.livenessEvaluation e), s, [TraceEvent.livenessEval]⟩
      | Except.ok (passed, reason) =>
        if !passed then
          let record : LifeCertificate :=
            { id := env.certID, participantID := participant.id, selfiePath := "",
              status := statusReview, distance := none, similarity := none,
              verifiedAt := now, notes := some reason }
          match certificatesCreate s record with
          | Except.error e =>
            ⟨Except.error (SvcError.storeFailed e), s, [TraceEvent.livenessEval]⟩
          | Except.ok s1 =>
            ⟨Except.ok { participantID := participant.id, status := statusReview,
                         distance := none, similarity := none, verifiedAt := now },
             s1, [TraceEvent.livenessEval]⟩
        else
          match env.recognize with
          | Except.error e =>
            ⟨Except.error (SvcError.recognitionFailed e), s,
             [TraceEvent.livenessEval, TraceEvent.recognizeCall]⟩
          | Except.ok resp =>
            let distanceOk := distanceOkOf cfg resp
            let similarityOk := similarityOkOf cfg resp
            let resolved := resolveIdentity s participant cfg resp now
            let matchLabel := resolved.1
            let s1 := resolved.2.1
            let lookups := resolved.2.2
            let status := decideStatus matchLabel distanceOk similarityOk resp.distance
            let record : LifeCertificate :=
              { id := env.certID, participantID := participant.id, selfiePath := "",
                status := status, distance := resp.distance,
                similarity := some resp.similarity, verifiedAt := now, notes := none }
            match certificatesCreate s1 record with
            | Except.error e =>
              ⟨Except.error (SvcError.storeFailed e), s1,
               [TraceEvent.livenessEval, TraceEvent.recognizeCall] ++ lookups⟩
            | Except.ok s2 =>
              ⟨Except.ok { participantID := participant.id, status := status,
                           distance := resp.distance, similarity := some resp.similarity,
                           verifiedAt := now },
               s2, [TraceEvent.livenessEval, TraceEvent.recognizeCall] ++ lookups⟩

/-- `service.StatusOutput` for the latest-status query; a missing record
leaves the status at the empty-string zero value. -/
structure StatusOutput where
  participantID : String
  status : String
  distance : Option ℚ
  similarity : Option ℚ
  verifiedAt : Option Nat
  selfiePath : String
deriving DecidableEq, Repr

/-- `VerificationService.LatestStatus`. -/
def LatestStatus (s : Store) (participantID0 : String) : Except SvcError StatusOutput :=
  let participantID := trimSpace participantID0
  if participantID = "" then
    Except.error (SvcError.validation "participant_id is required")
  else
    match participantsGetByID s participantID with
    | none => Except.error SvcError.participantNotFound
    | some _ =>
      match certificatesGetLatestByParticipant s participantID with
      | none =>
        Except.ok { participantID := participantID, status := "", distance := none,
                    similarity := none, verifiedAt := none, selfiePath := "" }
      | some record =>
        Except.ok { participantID := participantID, status := record.status,
                    distance := record.distance, similarity := record.similarity,
                    verifiedAt := some record.verifiedAt, selfiePath := record.selfiePath }

/-- `service.RegisterInput`. -/
structure RegisterInput where
  nik : String
  name : String
  image : List Nat
  imageName : String
deriving DecidableEq, Repr

/-- `service.RegisterOutput`. -/
structure RegisterOutput where
  participantID : String
  frRef : String
  frExternalRef : String
deriving DecidableEq, Repr

/-- Oracle inputs consumed by one `Register` run: the two generated
identifiers, the engine's upload response, and the clock reading. -/
structure RegisterEnv where
  participantID : String
  frLabel : String
  upload : Except String UploadResponse
  now : Nat
deriving Repr

/-- Result of a `Register` run. -/
structure RegisterResult where
  result : Except SvcError RegisterOutput
  store : Store
  trace : List TraceEvent
deriving Repr

/-- `ParticipantService.Register`.  Note the source checks the duplicate
NIK with the raw `input.NIK` but persists `strings.TrimSpace(input.NIK)`. -/
def Register (s : Store) (env : RegisterEnv) (input : RegisterInput) : RegisterResult :=
  if trimSpace input.nik = "" then
    ⟨Except.error (SvcError.validation "nik is required"), s, []⟩
  else if trimSpace input.name = "" then
    ⟨Except.error (SvcError.validation "name is required"), s, []⟩
  else if input.image.isEmpty then
    ⟨Except.error (SvcError.validation "image is required"), s, []⟩
  else
    match participantsGetByNIK s input.nik with
    | some _ => ⟨Except.error SvcError.participantExists, s, []⟩
    | none =>
      let participantID := env.participantID
      let imageName := if trimSpace input.imageName = "" then "registration.jpg"
                       else input.imageName
      let frLabel := env.frLabel
      let frExternalRef := participantID
      let req : UploadRequest :=
        { label := frLabel, externalRef := frExternalRef,
          imageName := imageName, image := input.image }
      match env.upload with
      | Except.error e =>
        ⟨Except.error (SvcError.recognitionFailed e), s, [TraceEvent.uploadFace req]⟩
      | Except.ok uploadResp =>
        let frRef0 := uploadResp.label
        let frRef1 := if trimSpace frRef0 = "" then uploadResp.id else frRef0
        let frRef := if trimSpace frRef1 = "" then frLabel else frRef1
        let frExternal := if trimSpace uploadResp.externalRef = "" then frExternalRef
                          else uploadResp.externalRef
        let now := env.now
        let participant : Participant :=
          { id := participantID, nik := trimSpace input.nik,
            name := trimSpace input.name, frLabel := frRef,
            frExternalRef := frExternal, createdAt := now, updatedAt := now }
        match participantsCreate s participant with
        | Except.error e =>
          ⟨Except.error (SvcError.storeFailed e), s, [TraceEvent.uploadFace req]⟩
        | Except.ok s1 =>
          let s2 := frIdentitiesCreate s1 now
            { label := frRef, participantID := participant.id,
              externalRef := frExternal, createdAt := 0 }
          ⟨Except.ok { participantID := participant.id, frRef := participant.frLabel,
                       frExternalRef := participant.frExternalRef },
           s2, [TraceEvent.uploadFace req]⟩

/-- `service.UpdateParticipantInput`. -/
structure UpdateParticipantInput where
  nik : String
  name : String
deriving DecidableEq, Repr

/-- `ParticipantService.Update`: blank fields keep the stored values, a
changed NIK is re-validated for uniqueness, then the row is updated. -/
def ParticipantUpdate (s : Store) (id : String) (input : UpdateParticipantInput)
    (now : Nat) : Except SvcError (Participant × Store) :=
  match participantsGetByID s id with
  | none => Except.error SvcError.participantNotFound
  | some participant =>
    let newNIK := if trimSpace input.nik = "" then participant.nik else trimSpace input.nik
    let newName := if trimSpace input.name = "" then participant.name else trimSpace input.name
    let conflict :=
      if newNIK = participant.nik then false
      else
        match participantsGetByNIK s newNIK with
        | some existing => existing.id ≠ participant.id
        | none => false
    if conflict then Except.error SvcError.participantExists
    else
      let updated := { participant with nik := newNIK, name := newName, updatedAt := now }
      Except.ok (updated, participantsUpdate s updated)

/-- `ParticipantService.Delete`: delete ledger entries, then label
mappings, then the participant row. -/
def ParticipantDelete (s : Store) (id : String) : Except SvcError Store :=
  match participantsGetByID s id with
  | none => Except.error SvcError.participantNotFound
  | some _ =>
    let s1 := certificatesDeleteByParticipant s id
    let s2 := frIdentitiesDeleteByParticipantID s1 id
    Except.ok (participantsDelete s2 id)

/-- All store-mutating operations the services expose (`Register`,
`Verify`, participant `Update` and `Delete`; the remaining service
operations only read the stores, and the member CRUD service touches a
disjoint table). -/
inductive SystemOp where
  | register (env : RegisterEnv) (input : RegisterInput) : SystemOp
  | verify (cfg : VerifyConfig) (env : VerifyEnv) (input : VerifyInput) : SystemOp
  | updateParticipant (id : String) (input : UpdateParticipantInput) (now : Nat) : SystemOp
  | deleteParticipant (id : String) : SystemOp

/-- Post-state store of one service operation (the pre-state when the
operation fails before mutating). -/
def applyOp (s : Store) : SystemOp → Store
  | SystemOp.register env input => (Register s env input).store
  | SystemOp.verify cfg env input => (Verify s cfg env input).store
  | SystemOp.updateParticipant id input now =>
    match ParticipantUpdate s id input now with
    | Except.ok r => r.2
    | Except.error _ => s
  | SystemOp.deleteParticipant id =>
    match ParticipantDelete s id with
    | Except.ok s1 => s1
    | Except.error _ => s

end LifeCert

deriving instance DecidableEq for Except

namespace LifeCert

/-! ### Helper lemmas -/

lemma resolveIdentity_certificates (s : Store) (p : Participant) (cfg : VerifyConfig)
    (resp : RecognizeResponse) (now : Nat) :
    (resolveIdentity s p cfg resp now).2.1.certificates = s.certificates := by
  unfold resolveIdentity frIdentitiesCreate
  dsimp only
  repeat' split
  all_goals rfl

lemma resolveIdentity_participants (s : Store) (p : Participant) (cfg : VerifyConfig)
    (resp : RecognizeResponse) (now : Nat) :
    (resolveIdentity s p cfg resp now).2.1.participants = s.participants := by
  unfold resolveIdentity frIdentitiesCreate
  dsimp only
  repeat' split
  all_goals rfl

lemma certificatesCreate_of_fresh (s : Store) (c : LifeCertificate)
    (h : s.certificates.any (fun d => d.id = c.id) = false) :
    certificatesCreate s c = Except.ok { s with certificates := s.certificates ++ [c] } := by
  unfold certificatesCreate
  simp [h]

/-- Unfolding of `Verify` on the liveness-passed, recognition-completed,
fresh-record-id path. -/
lemma Verify_recognized (s : Store) (cfg : VerifyConfig) (env : VerifyEnv)
    (input : VerifyInput) (p : Participant) (reason : String) (resp : RecognizeResponse)
    (h1 : ¬ trimSpace input.participantID = "")
    (h2 : input.imageBytes.isEmpty = false)
    (h3 : participantsGetByID s (trimSpace input.participantID) = some p)
    (h4 : env.liveness = Except.ok (true, reason))
    (h5 : env.recognize = Except.ok resp)
    (h6 : s.certificates.any (fun d => d.id = env.certID) = false) :
    Verify s cfg env input =
      { result := Except.ok
          { participantID := p.id,
            status := decideStatus (matchLabelOf s p cfg resp env.now)
              (distanceOkOf cfg resp) (similarityOkOf cfg resp) resp.distance,
            distance := resp.distance, similarity := some resp.similarity,
            verifiedAt := env.now },
        store := { (resolveIdentity s p cfg resp env.now).2.1 with
          certificates := s.certificates ++
            [{ id := env.certID, participantID := p.id, selfiePath := "",
               status := decideStatus (matchLabelOf s p cfg resp env.now)
                 (distanceOkOf cfg resp) (similarityOkOf cfg resp) resp.distance,
               distance := resp.distance, similarity := some resp.similarity,
               verifiedAt := env.now, notes := none }] },
        trace := [TraceEvent.livenessEval, TraceEvent.recognizeCall] ++
          (resolveIdentity s p cfg resp env.now).2.2 } := by
  have hres : (resolveIdentity s p cfg resp env.now).2.1.certificates = s.certificates :=
    resolveIdentity_certificates s p cfg resp env.now
  have hcc := certificatesCreate_of_fresh (resolveIdentity s p cfg resp env.now).2.1
    { id := env.certID, participantID := p.id, selfiePath := "",
      status := decideStatus (resolveIdentity s p cfg resp env.now).1
        (distanceOkOf cfg resp) (similarityOkOf cfg resp) resp.distance,
      distance := resp.distance, similarity := some resp.similarity,
      verifiedAt := env.now, notes := none }
    (by rw [hres]; exact h6)
  unfold Verify
  simp only [h1, h2, h3, h4, h5, if_neg, Bool.not_true, Bool.false_eq_true,
    if_false, ite_false, matchLabelOf]
  rw [hcc]
  simp [hres]

end LifeCert

namespace LifeCert

lemma decideStatus_eq_valid_iff (m d sim : Bool) (dist : Option ℚ) :
    (decideStatus m d sim dist = statusValid ↔
      (m = true ∧ (d = true ∨ (d = false ∧ dist = none ∧ sim = true)))) ∧
    (decideStatus m d sim dist = statusValid ∨ decideStatus m d sim dist = statusInvalid) := by
  unfold decideStatus
  cases m <;> cases d <;> cases sim <;> cases dist <;>
    simp [statusValid, statusInvalid, Option.isNone]

/-- C1: after a passed liveness check and a completed recognition call, the
status returned (and recorded) by `Verify` is `VALID` exactly when
`matchLabel` holds and either `distanceOk` holds, or no distance was
returned and `similarityOk` holds; in every other case it is `INVALID`. -/
theorem C1_status_valid_iff (s : Store) (cfg : VerifyConfig) (env : VerifyEnv)
    (input : VerifyInput) (p : Participant) (reason : String) (resp : RecognizeResponse)
    (h1 : ¬ trimSpace input.participantID = "")
    (h2 : input.imageBytes.isEmpty = false)
    (h3 : participantsGetByID s (trimSpace input.participantID) = some p)
    (h4 : env.liveness = Except.ok (true, reason))
    (h5 : env.recognize = Except.ok resp)
    (h6 : s.certificates.any (fun d => d.id = env.certID) = false) :
    ∃ out, (Verify s cfg env input).result = Except.ok out ∧
      (out.status = statusValid ↔
        (matchLabelOf s p cfg resp env.now = true ∧
          (distanceOkOf cfg resp = true ∨
            (distanceOkOf cfg resp = false ∧ resp.distance = none ∧
             similarityOkOf cfg resp = true)))) ∧
      (out.status = statusValid ∨ out.status = statusInvalid) := by
  rw [Verify_recognized s cfg env input p reason resp h1 h2 h3 h4 h5 h6]
  exact ⟨_, rfl, (decideStatus_eq_valid_iff _ _ _ _).1, (decideStatus_eq_valid_iff _ _ _ _).2⟩

/-- Fixture: participant `P1` bound to label `L1`. -/
def witParticipant : Participant :=
  { id := "P1", nik := "3201", name := "Alice", frLabel := "L1",
    frExternalRef := "X1", createdAt := 1, updatedAt := 1 }

def witIdentityL1 : FRIdentity :=
  { label := "L1", participantID := "P1", externalRef := "X1", createdAt := 1 }

def witStoreA : Store :=
  { participants := [witParticipant], frIdentities := [witIdentityL1], certificates := [] }

/-- Fixture: default thresholds, distance `0.6` and similarity `75`. -/
def witCfg : VerifyConfig := { distanceThreshold := mkRat 3 5, similarityThreshold := 75 }

/-- Fixture: recognition returns `{label: "L1", similarity: 92.5, distance: 0.3}`. -/
def witRespA : RecognizeResponse :=
  { label := "L1", similarity := mkRat 185 2, distance := some (mkRat 3 10) }

def witEnvA : VerifyEnv :=
  { liveness := Except.ok (true, "ok"), recognize := Except.ok witRespA,
    certID := "c1", now := 2 }

def witInput : VerifyInput :=
  { participantID := "P1", imageBytes := [0], originalFilename := "selfie.jpg" }

theorem C1_witness :
    ∃ out, (Verify witStoreA witCfg witEnvA witInput).result = Except.ok out ∧
      out.status = statusValid := by
  obtain ⟨out, hok, hiff, _⟩ := C1_status_valid_iff witStoreA witCfg witEnvA witInput
    witParticipant "ok" witRespA (by decide) (by decide) (by decide) rfl rfl (by decide)
  exact ⟨out, hok, hiff.mpr (by decide)⟩

end LifeCert

namespace LifeCert

lemma resolveIdentity_emptyLabel (s : Store) (p : Participant) (cfg : VerifyConfig)
    (resp : RecognizeResponse) (now : Nat) (h : trimSpace resp.label = "") :
    resolveIdentity s p cfg resp now = (false, s, []) := by
  unfold resolveIdentity
  simp [h]

lemma resolveIdentity_found (s : Store) (p : Participant) (cfg : VerifyConfig)
    (resp : RecognizeResponse) (now : Nat) (idn : FRIdentity)
    (hlabel : ¬ trimSpace resp.label = "")
    (h : frIdentitiesGetByLabel s (trimSpace resp.label) = some idn) :
    resolveIdentity s p cfg resp now =
      (decide (idn.participantID = p.id), s,
       [TraceEvent.identityLookup (trimSpace resp.label)]) := by
  unfold resolveIdentity
  simp [hlabel, h]

lemma decideStatus_false (d sim : Bool) (dist : Option ℚ) :
    decideStatus false d sim dist = statusInvalid := by
  unfold decideStatus
  simp

/-- C2: when liveness passes and the recognized label is already mapped to
a different participant, `matchLabel` is false and the outcome is
`INVALID`, whatever the similarity and distance are. -/
theorem C2_foreign_label_invalid (s : Store) (cfg : VerifyConfig) (env : VerifyEnv)
    (input : VerifyInput) (p : Participant) (reason : String) (resp : RecognizeResponse)
    (idn : FRIdentity)
    (h1 : ¬ trimSpace input.participantID = "")
    (h2 : input.imageBytes.isEmpty = false)
    (h3 : participantsGetByID s (trimSpace input.participantID) = some p)
    (h4 : env.liveness = Except.ok (true, reason))
    (h5 : env.recognize = Except.ok resp)
    (h6 : s.certificates.any (fun d => d.id = env.certID) = false)
    (h7 : frIdentitiesGetByLabel s (trimSpace resp.label) = some idn)
    (h8 : ¬ idn.participantID = p.id) :
    matchLabelOf s p cfg resp env.now = false ∧
    ∃ out, (Verify s cfg env input).result = Except.ok out ∧ out.status = statusInvalid := by
  have hm : matchLabelOf s p cfg resp env.now = false := by
    unfold matchLabelOf
    by_cases hl : trimSpace resp.label = ""
    · rw [resolveIdentity_emptyLabel s p cfg resp env.now hl]
    · rw [resolveIdentity_found s p cfg resp env.now idn hl h7]
      simp [h8]
  rw [Verify_recognized s cfg env input p reason resp h1 h2 h3 h4 h5 h6]
  refine ⟨hm, _, rfl, ?_⟩
  show decideStatus (matchLabelOf s p cfg resp env.now) (distanceOkOf cfg resp)
    (similarityOkOf cfg resp) resp.distance = statusInvalid
  rw [hm, decideStatus_false]

/-- Fixture: the label `L1` is owned by a different participant `P2`. -/
def witIdentityOther : FRIdentity :=
  { label := "L1", participantID := "P2", externalRef := "X2", createdAt := 1 }

def witStoreB : Store :=
  { participants := [witParticipant], frIdentities := [witIdentityOther], certificates := [] }

theorem C2_witness :
    matchLabelOf witStoreB witParticipant witCfg witRespA witEnvA.now = false ∧
    ∃ out, (Verify witStoreB witCfg witEnvA witInput).result = Except.ok out ∧
      out.status = statusInvalid :=
  C2_foreign_label_invalid witStoreB witCfg witEnvA witInput witParticipant "ok"
    witRespA witIdentityOther (by decide) (by decide) (by decide) rfl rfl
    (by decide) (by decide) (by decide)

lemma Verify_liveness_failed (s : Store) (cfg : VerifyConfig) (env : VerifyEnv)
    (input : VerifyInput) (p : Participant) (reason : String)
    (h1 : ¬ trimSpace input.participantID = "")
    (h2 : input.imageBytes.isEmpty = false)
    (h3 : participantsGetByID s (trimSpace input.participantID) = some p)
    (h4 : env.liveness = Except.ok (false, reason))
    (h6 : s.certificates.any (fun d => d.id = env.certID) = false) :
    Verify s cfg env input =
      { result := Except.ok
          { participantID := p.id, status := statusReview, distance := none,
            similarity := none, verifiedAt := env.now },
        store := { s with certificates := s.certificates ++
          [{ id := env.certID, participantID := p.id, selfiePath := "",
             status := statusReview, distance := none, similarity := none,
             verifiedAt := env.now, notes := some reason }] },
        trace := [TraceEvent.livenessEval] } := by
  have hcc := certificatesCreate_of_fresh s
    { id := env.certID, participantID := p.id, selfiePath := "",
      status := statusReview, distance := none, similarity := none,
      verifiedAt := env.now, notes := some reason } h6
  unfold Verify
  simp only [h1, h2, h3, h4, if_neg, Bool.not_false, Bool.false_eq_true,
    if_false, ite_false, ite_true]
  rw [hcc]

/-- C3: a failed liveness verdict records exactly one `REVIEW` ledger entry
carrying the liveness reason as notes, performs no recognition call, and
returns `REVIEW` with no distance and no similarity. -/
theorem C3_liveness_failure_review (s : Store) (cfg : VerifyConfig) (env : VerifyEnv)
    (input : VerifyInput) (p : Participant) (reason : String)
    (h1 : ¬ trimSpace input.participantID = "")
    (h2 : input.imageBytes.isEmpty = false)
    (h3 : participantsGetByID s (trimSpace input.participantID) = some p)
    (h4 : env.liveness = Except.ok (false, reason))
    (h6 : s.certificates.any (fun d => d.id = env.certID) = false) :
    (Verify s cfg env input).result = Except.ok
      { participantID := p.id, status := statusReview, distance := none,
        similarity := none, verifiedAt := env.now } ∧
    (Verify s cfg env input).store.certificates = s.certificates ++
      [{ id := env.certID, participantID := p.id, selfiePath := "",
         status := statusReview, distance := none, similarity := none,
         verifiedAt := env.now, notes := some reason }] ∧
    (Verify s cfg env input).store.participants = s.participants ∧
    (Verify s cfg env input).store.frIdentities = s.frIdentities ∧
    (Verify s cfg env input).trace = [TraceEvent.livenessEval] ∧
    TraceEvent.recognizeCall ∉ (Verify s cfg env input).trace := by
  rw [Verify_liveness_failed s cfg env input p reason h1 h2 h3 h4 h6]
  exact ⟨rfl, rfl, rfl, rfl, rfl, by simp⟩

/-- Fixture: the disabled liveness checker; the recognition oracle is left
failing to witness that it is never consulted. -/
def witEnvC : VerifyEnv :=
  { liveness := NoopCheckerEvaluate false, recognize := Except.error "unreachable",
    certID := "c1", now := 2 }

theorem C3_witness :
    (Verify witStoreA witCfg witEnvC witInput).result = Except.ok
      { participantID := witParticipant.id, status := statusReview, distance := none,
        similarity := none, verifiedAt := witEnvC.now } ∧
    (Verify witStoreA witCfg witEnvC witInput).store.certificates =
      witStoreA.certificates ++
      [{ id := witEnvC.certID, participantID := witParticipant.id, selfiePath := "",
         status := statusReview, distance := none, similarity := none,
         verifiedAt := witEnvC.now, notes := some "liveness_disabled" }] ∧
    (Verify witStoreA witCfg witEnvC witInput).store.participants = witStoreA.participants ∧
    (Verify witStoreA witCfg witEnvC witInput).store.frIdentities = witStoreA.frIdentities ∧
    (Verify witStoreA witCfg witEnvC witInput).trace = [TraceEvent.livenessEval] ∧
    TraceEvent.recognizeCall ∉ (Verify witStoreA witCfg witEnvC witInput).trace :=
  C3_liveness_failure_review witStoreA witCfg witEnvC witInput witParticipant
    "liveness_disabled" (by decide) (by decide) (by decide) rfl (by decide)

end LifeCert

namespace LifeCert

lemma certificatesCreate_ok_certs (s : Store) (c : LifeCertificate) (s2 : Store)
    (h : certificatesCreate s c = Except.ok s2) : s2.certificates = s.certificates ++ [c] := by
  unfold certificatesCreate at h
  split at h
  · simp at h
  · injection h with h
    subst h
    rfl

/-- Every run of `Verify` that returns a value appends exactly one record
to the verification ledger. -/
lemma Verify_ok_appends (s : Store) (cfg : VerifyConfig) (env : VerifyEnv)
    (input : VerifyInput) (out : VerifyOutput)
    (h : (Verify s cfg env input).result = Except.ok out) :
    ∃ c, (Verify s cfg env input).store.certificates = s.certificates ++ [c] := by
  unfold Verify at h ⊢
  dsimp only at h ⊢
  repeat' split at h
  all_goals simp_all
  all_goals rename_i hcc
  · exact ⟨_, certificatesCreate_ok_certs _ _ _ hcc⟩
  · exact ⟨_, by rw [certificatesCreate_ok_certs _ _ _ hcc, resolveIdentity_certificates]⟩

/-- C5: when liveness passes but the recognition call fails, the error is
propagated, the store is untouched (no ledger entry), while any run that
does return an outcome has appended exactly one ledger record — so a
dependency failure is distinguishable from a completed
`INVALID`/`REVIEW` outcome. -/
theorem C5_recognition_error_no_ledger (s : Store) (cfg : VerifyConfig) (env : VerifyEnv)
    (input : VerifyInput) (p : Participant) (reason e : String)
    (h1 : ¬ trimSpace input.participantID = "")
    (h2 : input.imageBytes.isEmpty = false)
    (h3 : participantsGetByID s (trimSpace input.participantID) = some p)
    (h4 : env.liveness = Except.ok (true, reason))
    (h5 : env.recognize = Except.error e) :
    (Verify s cfg env input).result = Except.error (SvcError.recognitionFailed e) ∧
    (Verify s cfg env input).store = s ∧
    ∀ (env2 : VerifyEnv) (out2 : VerifyOutput),
      (Verify s cfg env2 input).result = Except.ok out2 →
      ∃ c, (Verify s cfg env2 input).store.certificates = s.certificates ++ [c] := by
  have hv : Verify s cfg env input =
      ⟨Except.error (SvcError.recognitionFailed e), s,
       [TraceEvent.livenessEval, TraceEvent.recognizeCall]⟩ := by
    unfold Verify
    simp only [h1, h2, h3, h4, h5, if_neg, Bool.not_true, Bool.false_eq_true,
      if_false, ite_false]
  rw [hv]
  exact ⟨rfl, rfl, fun env2 out2 h => Verify_ok_appends s cfg env2 input out2 h⟩

/-- Fixture: recognition port fails after a passed liveness check. -/
def witEnvErr : VerifyEnv :=
  { liveness := Except.ok (true, "ok"), recognize := Except.error "boom",
    certID := "c1", now := 2 }

theorem C5_witness :
    (Verify witStoreA witCfg witEnvErr witInput).result =
      Except.error (SvcError.recognitionFailed "boom") ∧
    (Verify witStoreA witCfg witEnvErr witInput).store = witStoreA := by
  obtain ⟨ha, hb, _⟩ := C5_recognition_error_no_ledger witStoreA witCfg witEnvErr
    witInput witParticipant "ok" "boom" (by decide) (by decide) (by decide) rfl rfl
  exact ⟨ha, hb⟩

/-- C10: when liveness passes and the recognized label is empty or
whitespace-only, `Verify` performs no identity-store lookup, creates no
alias mapping, leaves `matchLabel` false, and records and returns
`INVALID` regardless of the scores. -/
theorem C10_blank_label_invalid (s : Store) (cfg : VerifyConfig) (env : VerifyEnv)
    (input : VerifyInput) (p : Participant) (reason : String) (resp : RecognizeResponse)
    (h1 : ¬ trimSpace input.participantID = "")
    (h2 : input.imageBytes.isEmpty = false)
    (h3 : participantsGetByID s (trimSpace input.participantID) = some p)
    (h4 : env.liveness = Except.ok (true, reason))
    (h5 : env.recognize = Except.ok resp)
    (h6 : s.certificates.any (fun d => d.id = env.certID) = false)
    (h7 : trimSpace resp.label = "") :
    matchLabelOf s p cfg resp env.now = false ∧
    (Verify s cfg env input).store.frIdentities = s.frIdentities ∧
    (Verify s cfg env input).trace = [TraceEvent.livenessEval, TraceEvent.recognizeCall] ∧
    (∀ l, TraceEvent.identityLookup l ∉ (Verify s cfg env input).trace) ∧
    ∃ out, (Verify s cfg env input).result = Except.ok out ∧ out.status = statusInvalid := by
  have hr := resolveIdentity_emptyLabel s p cfg resp env.now h7
  have hm : matchLabelOf s p cfg resp env.now = false := by
    unfold matchLabelOf
    rw [hr]
  rw [Verify_recognized s cfg env input p reason resp h1 h2 h3 h4 h5 h6]
  refine ⟨hm, ?_, ?_, ?_, _, rfl, ?_⟩
  · show (resolveIdentity s p cfg resp env.now).2.1.frIdentities = s.frIdentities
    rw [hr]
  · show [TraceEvent.livenessEval, TraceEvent.recognizeCall] ++
      (resolveIdentity s p cfg resp env.now).2.2 =
      [TraceEvent.livenessEval, TraceEvent.recognizeCall]
    rw [hr]
    rfl
  · intro l
    show TraceEvent.identityLookup l ∉
      [TraceEvent.livenessEval, TraceEvent.recognizeCall] ++
      (resolveIdentity s p cfg resp env.now).2.2
    rw [hr]
    simp
  · show decideStatus (matchLabelOf s p cfg resp env.now) (distanceOkOf cfg resp)
      (similarityOkOf cfg resp) resp.distance = statusInvalid
    rw [hm, decideStatus_false]

/-- Fixture: a whitespace-only recognized label with passing scores. -/
def witRespBlank : RecognizeResponse :=
  { label := "   ", similarity := 99, distance := some (mkRat 1 10) }

def witEnvBlank : VerifyEnv :=
  { liveness := Except.ok (true, "ok"), recognize := Except.ok witRespBlank,
    certID := "c1", now := 2 }

theorem C10_witness :
    matchLabelOf witStoreA witParticipant witCfg witRespBlank witEnvBlank.now = false ∧
    (Verify witStoreA witCfg witEnvBlank witInput).store.frIdentities =
      witStoreA.frIdentities ∧
    (Verify witStoreA witCfg witEnvBlank witInput).trace =
      [TraceEvent.livenessEval, TraceEvent.recognizeCall] ∧
    (∀ l, TraceEvent.identityLookup l ∉ (Verify witStoreA witCfg witEnvBlank witInput).trace) ∧
    ∃ out, (Verify witStoreA witCfg witEnvBlank witInput).result = Except.ok out ∧
      out.status = statusInvalid :=
  C10_blank_label_invalid witStoreA witCfg witEnvBlank witInput witParticipant "ok"
    witRespBlank (by decide) (by decide) (by decide) rfl rfl (by decide) (by decide)

end LifeCert

namespace LifeCert

lemma adjustedCreatedAt_label (j : FRIdentity) (n : Nat) :
    ((if j.createdAt = 0 then { j with createdAt := n } else j) : FRIdentity).label = j.label := by
  split <;> rfl

/-- Re-inserting the same label mapping is a no-op, not an error
(`OnConflict DoNothing`). -/
lemma frIdentitiesCreate_idem (t : Store) (n n2 : Nat) (j : FRIdentity) :
    frIdentitiesCreate (frIdentitiesCreate t n j) n2 j = frIdentitiesCreate t n j := by
  unfold frIdentitiesCreate
  dsimp only
  rw [adjustedCreatedAt_label, adjustedCreatedAt_label]
  by_cases h : t.frIdentities.any (fun x => x.label = j.label) = true
  · simp [h]
  · simp only [Bool.not_eq_true] at h
    simp [h, List.any_append, adjustedCreatedAt_label]

lemma getByLabel_none_any_false (s : Store) (lab : String)
    (h : frIdentitiesGetByLabel s lab = none) :
    s.frIdentities.any (fun j => j.label = lab) = false := by
  unfold frIdentitiesGetByLabel at h
  rw [List.find?_eq_none] at h
  rw [List.any_eq_false]
  intro x hx
  simpa using h x hx

lemma getByLabel_none_filter_nil (s : Store) (lab : String)
    (h : frIdentitiesGetByLabel s lab = none) :
    s.frIdentities.filter (fun j => j.label = lab) = [] := by
  unfold frIdentitiesGetByLabel at h
  rw [List.find?_eq_none] at h
  rw [List.filter_eq_nil_iff]
  exact h

lemma find?_append_of_none {α : Type} (p : α → Bool) (l1 l2 : List α)
    (h : l1.find? p = none) : (l1 ++ l2).find? p = l2.find? p := by
  induction l1 with
  | nil => rfl
  | cons a l ih =>
    cases hpa : p a
    · have hna : ¬ p a = true := by simp [hpa]
      rw [List.find?_cons_of_neg _ hna] at h
      rw [List.cons_append, List.find?_cons_of_neg _ hna]
      exact ih h
    · rw [List.find?_cons_of_pos _ hpa] at h
      simp at h

lemma resolveIdentity_unseen_high (s : Store) (p : Participant) (cfg : VerifyConfig)
    (resp : RecognizeResponse) (now : Nat)
    (hlabel : ¬ trimSpace resp.label = "")
    (h : frIdentitiesGetByLabel s (trimSpace resp.label) = none)
    (hc : (similarityOkOf cfg resp && (resp.distance.isNone || distanceOkOf cfg resp)) = true) :
    resolveIdentity s p cfg resp now =
      (true,
       frIdentitiesCreate s now
         { label := trimSpace resp.label, participantID := p.id,
           externalRef := p.frExternalRef, createdAt := 0 },
       [TraceEvent.identityLookup (trimSpace resp.label)]) := by
  unfold resolveIdentity
  simp [hlabel, h, hc]

end LifeCert

namespace LifeCert

lemma frIdentitiesCreate_zero_unseen (s : Store) (now : Nat) (i : FRIdentity)
    (hz : i.createdAt = 0)
    (h : s.frIdentities.any (fun j => j.label = i.label) = false) :
    frIdentitiesCreate s now i =
      { s with frIdentities := s.frIdentities ++ [{ i with createdAt := now }] } := by
  unfold frIdentitiesCreate
  dsimp only
  simp [hz, h]

/-- C4: liveness passed, unseen non-blank label, similarity above threshold
and no distance: the outcome is `VALID`, the label is bound to the
requesting participant by exactly one new mapping row, and label-mapping
creation is idempotent (re-inserting the same mapping is a no-op). -/
theorem C4_new_alias_created_once (s : Store) (cfg : VerifyConfig) (env : VerifyEnv)
    (input : VerifyInput) (p : Participant) (reason : String) (resp : RecognizeResponse)
    (h1 : ¬ trimSpace input.participantID = "")
    (h2 : input.imageBytes.isEmpty = false)
    (h3 : participantsGetByID s (trimSpace input.participantID) = some p)
    (h4 : env.liveness = Except.ok (true, reason))
    (h5 : env.recognize = Except.ok resp)
    (h6 : s.certificates.any (fun d => d.id = env.certID) = false)
    (h7 : ¬ trimSpace resp.label = "")
    (h8 : frIdentitiesGetByLabel s (trimSpace resp.label) = none)
    (h9 : similarityOkOf cfg resp = true)
    (h10 : resp.distance = none) :
    (∃ out, (Verify s cfg env input).result = Except.ok out ∧ out.status = statusValid) ∧
    matchLabelOf s p cfg resp env.now = true ∧
    frIdentitiesGetByLabel (Verify s cfg env input).store (trimSpace resp.label) =
      some { label := trimSpace resp.label, participantID := p.id,
             externalRef := p.frExternalRef, createdAt := env.now } ∧
    ((Verify s cfg env input).store.frIdentities.filter
      (fun j => j.label = trimSpace resp.label)).length = 1 ∧
    (∀ (t : Store) (n n2 : Nat) (j : FRIdentity),
      frIdentitiesCreate (frIdentitiesCreate t n j) n2 j = frIdentitiesCreate t n j) := by
  have hcond : (similarityOkOf cfg resp &&
      (resp.distance.isNone || distanceOkOf cfg resp)) = true := by
    rw [h9, h10]
    rfl
  have hd : distanceOkOf cfg resp = false := by
    unfold distanceOkOf
    rw [h10]
  have hres := resolveIdentity_unseen_high s p cfg resp env.now h7 h8 hcond
  have hany := getByLabel_none_any_false s (trimSpace resp.label) h8
  have hcreate := frIdentitiesCreate_zero_unseen s env.now
    { label := trimSpace resp.label, participantID := p.id,
      externalRef := p.frExternalRef, createdAt := 0 } rfl hany
  have hm : matchLabelOf s p cfg resp env.now = true := by
    unfold matchLabelOf
    rw [hres]
  rw [Verify_recognized s cfg env input p reason resp h1 h2 h3 h4 h5 h6]
  refine ⟨⟨_, rfl, ?_⟩, hm, ?_, ?_, fun t n n2 j => frIdentitiesCreate_idem t n n2 j⟩
  · show decideStatus (matchLabelOf s p cfg resp env.now) (distanceOkOf cfg resp)
      (similarityOkOf cfg resp) resp.distance = statusValid
    rw [hm, hd, h9, h10]
    rfl
  · show frIdentitiesGetByLabel
      { (resolveIdentity s p cfg resp env.now).2.1 with
        certificates := s.certificates ++
          [{ id := env.certID, participantID := p.id, selfiePath := "",
             status := decideStatus (matchLabelOf s p cfg resp env.now)
               (distanceOkOf cfg resp) (similarityOkOf cfg resp) resp.distance,
             distance := resp.distance, similarity := some resp.similarity,
             verifiedAt := env.now, notes := none }] }
      (trimSpace resp.label) = some
      { label := trimSpace resp.label, participantID := p.id,
        externalRef := p.frExternalRef, createdAt := env.now }
    unfold frIdentitiesGetByLabel
    dsimp only
    rw [hres]
    dsimp only
    rw [hcreate]
    dsimp only
    rw [find?_append_of_none _ _ _ h8]
    simp
  · show (({ (resolveIdentity s p cfg resp env.now).2.1 with
        certificates := s.certificates ++
          [{ id := env.certID, participantID := p.id, selfiePath := "",
             status := decideStatus (matchLabelOf s p cfg resp env.now)
               (distanceOkOf cfg resp) (similarityOkOf cfg resp) resp.distance,
             distance := resp.distance, similarity := some resp.similarity,
             verifiedAt := env.now, notes := none }] } : Store).frIdentities.filter
      (fun j => j.label = trimSpace resp.label)).length = 1
    dsimp only
    rw [hres]
    dsimp only
    rw [hcreate]
    dsimp only
    rw [List.filter_append, getByLabel_none_filter_nil s (trimSpace resp.label) h8]
    simp

end LifeCert

namespace LifeCert

/-- Fixture: recognition returns unseen label `L2`, similarity `80`, no
distance. -/
def witRespD : RecognizeResponse := { label := "L2", similarity := 80, distance := none }

def witEnvD : VerifyEnv :=
  { liveness := Except.ok (true, "ok"), recognize := Except.ok witRespD,
    certID := "c1", now := 2 }

theorem C4_witness :
    (∃ out, (Verify witStoreA witCfg witEnvD witInput).result = Except.ok out ∧
      out.status = statusValid) ∧
    matchLabelOf witStoreA witParticipant witCfg witRespD witEnvD.now = true ∧
    frIdentitiesGetByLabel (Verify witStoreA witCfg witEnvD witInput).store
      (trimSpace witRespD.label) = some
      { label := trimSpace witRespD.label, participantID := witParticipant.id,
        externalRef := witParticipant.frExternalRef, createdAt := witEnvD.now } ∧
    ((Verify witStoreA witCfg witEnvD witInput).store.frIdentities.filter
      (fun j => j.label = trimSpace witRespD.label)).length = 1 ∧
    (∀ (t : Store) (n n2 : Nat) (j : FRIdentity),
      frIdentitiesCreate (frIdentitiesCreate t n j) n2 j = frIdentitiesCreate t n j) :=
  C4_new_alias_created_once witStoreA witCfg witEnvD witInput witParticipant "ok"
    witRespD (by decide) (by decide) (by decide) rfl rfl (by decide) (by decide)
    (by decide) (by decide) (by decide)

lemma latestFold_acc_le (l : List LifeCertificate) :
    ∀ (b r : LifeCertificate),
      l.foldl (fun acc c =>
        match acc with
        | none => some c
        | some b => if b.verifiedAt < c.verifiedAt then some c else some b) (some b) =
        some r →
      b.verifiedAt ≤ r.verifiedAt := by
  induction l with
  | nil =>
    intro b r h
    injection h with h
    exact h ▸ le_refl _
  | cons c l ih =>
    intro b r h
    simp only [List.foldl] at h
    by_cases hbc : b.verifiedAt < c.verifiedAt
    · rw [if_pos hbc] at h
      exact le_trans (le_of_lt hbc) (ih c r h)
    · rw [if_neg hbc] at h
      exact ih b r h

lemma latestFold_mem (l : List LifeCertificate) :
    ∀ (acc : Option LifeCertificate) (r : LifeCertificate),
      l.foldl (fun acc c =>
        match acc with
        | none => some c
        | some b => if b.verifiedAt < c.verifiedAt then some c else some b) acc =
        some r →
      acc = some r ∨ r ∈ l := by
  induction l with
  | nil =>
    intro acc r h
    exact Or.inl h
  | cons c l ih =>
    intro acc r h
    cases acc with
    | none =>
      simp only [List.foldl] at h
      rcases ih (some c) r h with hc | hm
      · injection hc with hc
        exact Or.inr (hc ▸ List.mem_cons_self c l)
      · exact Or.inr (List.mem_cons_of_mem c hm)
    | some b =>
      simp only [List.foldl] at h
      by_cases hbc : b.verifiedAt < c.verifiedAt
      · rw [if_pos hbc] at h
        rcases ih (some c) r h with hc | hm
        · injection hc with hc
          exact Or.inr (hc ▸ List.mem_cons_self c l)
        · exact Or.inr (List.mem_cons_of_mem c hm)
      · rw [if_neg hbc] at h
        rcases ih (some b) r h with hb | hm
        · exact Or.inl hb
        · exact Or.inr (List.mem_cons_of_mem c hm)

lemma latestFold_ge (l : List LifeCertificate) :
    ∀ (acc : Option LifeCertificate) (r : LifeCertificate),
      l.foldl (fun acc c =>
        match acc with
        | none => some c
        | some b => if b.verifiedAt < c.verifiedAt then some c else some b) acc =
        some r →
      ∀ c ∈ l, c.verifiedAt ≤ r.verifiedAt := by
  induction l with
  | nil =>
    intro acc r _ c hc
    exact absurd hc (List.not_mem_nil c)
  | cons c l ih =>
    intro acc r h d hd
    rcases List.mem_cons.mp hd with hdc | hdl
    · subst hdc
      cases acc with
      | none =>
        simp only [List.foldl] at h
        exact latestFold_acc_le l d r h
      | some b =>
        simp only [List.foldl] at h
        by_cases hbc : b.verifiedAt < d.verifiedAt
        · rw [if_pos hbc] at h
          exact latestFold_acc_le l d r h
        · rw [if_neg hbc] at h
          exact le_trans (le_of_not_lt hbc) (latestFold_acc_le l b r h)
    · cases acc with
      | none =>
        simp only [List.foldl] at h
        exact ih (some c) r h d hdl
      | some b =>
        simp only [List.foldl] at h
        by_cases hbc : b.verifiedAt < c.verifiedAt
        · rw [if_pos hbc] at h
          exact ih (some c) r h d hdl
        · rw [if_neg hbc] at h
          exact ih (some b) r h d hdl

/-- The latest-record query returns a ledger record of the participant with
a maximal timestamp among that participant's records. -/
lemma certificatesGetLatest_spec (s : Store) (pid : String) (r : LifeCertificate)
    (h : certificatesGetLatestByParticipant s pid = some r) :
    r ∈ s.certificates ∧ r.participantID = pid ∧
    ∀ c ∈ s.certificates, c.participantID = pid → c.verifiedAt ≤ r.verifiedAt := by
  unfold certificatesGetLatestByParticipant at h
  have hmem := latestFold_mem _ none r h
  have hge := latestFold_ge _ none r h
  rcases hmem with hno | hm
  · exact absurd hno (by simp)
  · refine ⟨List.mem_of_mem_filter hm, ?_, ?_⟩
    · have := List.of_mem_filter hm
      simpa using this
    · intro c hc hcp
      exact hge c (List.mem_filter.mpr ⟨hc, by simp [hcp]⟩)

end LifeCert

namespace LifeCert

/-- C7: `LatestStatus` fails with not-found for a missing participant,
returns an empty status (not an error) for a participant with no attempts,
and otherwise returns the fields of the attempt with the greatest
timestamp. -/
theorem C7_latest_status_cases (s : Store) (pid : String)
    (hne : ¬ trimSpace pid = "") :
    (participantsGetByID s (trimSpace pid) = none →
      LatestStatus s pid = Except.error SvcError.participantNotFound) ∧
    (∀ p, participantsGetByID s (trimSpace pid) = some p →
      certificatesGetLatestByParticipant s (trimSpace pid) = none →
      LatestStatus s pid = Except.ok
        { participantID := trimSpace pid, status := "", distance := none,
          similarity := none, verifiedAt := none, selfiePath := "" }) ∧
    (∀ p r, participantsGetByID s (trimSpace pid) = some p →
      certificatesGetLatestByParticipant s (trimSpace pid) = some r →
      LatestStatus s pid = Except.ok
        { participantID := trimSpace pid, status := r.status, distance := r.distance,
          similarity := r.similarity, verifiedAt := some r.verifiedAt,
          selfiePath := r.selfiePath } ∧
      r ∈ s.certificates ∧ r.participantID = trimSpace pid ∧
      ∀ c ∈ s.certificates, c.participantID = trimSpace pid →
        c.verifiedAt ≤ r.verifiedAt) := by
  refine ⟨?_, ?_, ?_⟩
  · intro hnone
    unfold LatestStatus
    simp [hne, hnone]
  · intro p hp hcert
    unfold LatestStatus
    simp [hne, hp, hcert]
  · intro p r hp hcert
    have hspec := certificatesGetLatest_spec s (trimSpace pid) r hcert
    refine ⟨?_, hspec.1, hspec.2.1, hspec.2.2⟩
    unfold LatestStatus
    simp [hne, hp, hcert]

/-- Fixture: two ledger entries for `P1`; the one at time `9` is the most
recent. -/
def witCertOld : LifeCertificate :=
  { id := "c-old", participantID := "P1", selfiePath := "", status := statusReview,
    distance := none, similarity := none, verifiedAt := 5, notes := some "x" }

def witCertNew : LifeCertificate :=
  { id := "c-new", participantID := "P1", selfiePath := "", status := statusValid,
    distance := some (mkRat 3 10), similarity := some 90, verifiedAt := 9, notes := none }

def witStoreHist : Store :=
  { participants := [witParticipant], frIdentities := [witIdentityL1],
    certificates := [witCertOld, witCertNew] }

theorem C7_witness :
    LatestStatus witStoreHist "P1" = Except.ok
      { participantID := trimSpace "P1", status := witCertNew.status,
        distance := witCertNew.distance, similarity := witCertNew.similarity,
        verifiedAt := some witCertNew.verifiedAt,
        selfiePath := witCertNew.selfiePath } ∧
    witCertNew ∈ witStoreHist.certificates ∧
    witCertNew.participantID = trimSpace "P1" ∧
    ∀ c ∈ witStoreHist.certificates, c.participantID = trimSpace "P1" →
      c.verifiedAt ≤ witCertNew.verifiedAt :=
  (C7_latest_status_cases witStoreHist "P1" (by decide)).2.2 witParticipant witCertNew
    (by decide) (by decide)

end LifeCert

namespace LifeCert

lemma frIdentitiesCreate_certs (s : Store) (now : Nat) (i : FRIdentity) :
    (frIdentitiesCreate s now i).certificates = s.certificates := by
  unfold frIdentitiesCreate
  dsimp only
  repeat' split
  all_goals rfl

lemma participantsCreate_ok_parts (s : Store) (p : Participant) (s1 : Store)
    (h : participantsCreate s p = Except.ok s1) :
    s1.certificates = s.certificates ∧ s1.frIdentities = s.frIdentities ∧
    s1.participants = s.participants ++ [p] := by
  unfold participantsCreate at h
  split at h
  · simp at h
  · injection h with h
    subst h
    exact ⟨rfl, rfl, rfl⟩

lemma Register_certificates (s : Store) (env : RegisterEnv) (input : RegisterInput) :
    (Register s env input).store.certificates = s.certificates := by
  unfold Register
  dsimp only
  split
  · rfl
  · split
    · rfl
    · split
      · rfl
      · split
        · rfl
        · split
          · rfl
          · split
            · rfl
            · rename_i s1 heq
              show (frIdentitiesCreate s1 env.now _).certificates = s.certificates
              rw [frIdentitiesCreate_certs, (participantsCreate_ok_parts _ _ _ heq).1]

lemma ParticipantUpdate_ok_certs (s : Store) (id : String) (input : UpdateParticipantInput)
    (now : Nat) (r : Participant × Store)
    (h : ParticipantUpdate s id input now = Except.ok r) :
    r.2.certificates = s.certificates := by
  unfold ParticipantUpdate at h
  repeat' split at h
  all_goals try simp_all
  all_goals try repeat' split at h
  all_goals try simp_all
  all_goals subst h
  all_goals rfl

lemma ParticipantDelete_ok_certs (s : Store) (id : String) (s1 : Store)
    (h : ParticipantDelete s id = Except.ok s1) :
    s1.certificates = s.certificates.filter (fun c => ¬ c.participantID = id) := by
  unfold ParticipantDelete at h
  split at h
  · simp at h
  · injection h with h
    subst h
    rfl

/-- Every `Verify` run only ever appends to the ledger. -/
lemma Verify_certificates_mono (s : Store) (cfg : VerifyConfig) (env : VerifyEnv)
    (input : VerifyInput) :
    ∃ t, (Verify s cfg env input).store.certificates = s.certificates ++ t := by
  unfold Verify
  dsimp only
  repeat' split
  all_goals first
    | exact ⟨[], (List.append_nil _).symm⟩
    | skip
  all_goals rename_i hcc
  · exact ⟨_, certificatesCreate_ok_certs _ _ _ hcc⟩
  · exact ⟨[], by rw [resolveIdentity_certificates]; simp⟩
  · exact ⟨_, by rw [certificatesCreate_ok_certs _ _ _ hcc, resolveIdentity_certificates]⟩

/-- C9: ledger records are never mutated: under every store-mutating
service operation an existing attempt record survives unchanged, except
that participant deletion cascades to that participant's records. -/
theorem C9_ledger_append_only (s : Store) (op : SystemOp) (c : LifeCertificate)
    (hc : c ∈ s.certificates) :
    c ∈ (applyOp s op).certificates ∨
    ∃ pid, op = SystemOp.deleteParticipant pid ∧ c.participantID = pid := by
  cases op with
  | register env input =>
    left
    show c ∈ (Register s env input).store.certificates
    rw [Register_certificates]
    exact hc
  | verify cfg env input =>
    left
    show c ∈ (Verify s cfg env input).store.certificates
    obtain ⟨t, ht⟩ := Verify_certificates_mono s cfg env input
    rw [ht]
    exact List.mem_append_left t hc
  | updateParticipant id input now =>
    left
    show c ∈ (match ParticipantUpdate s id input now with
      | Except.ok r => r.2
      | Except.error _ => s).certificates
    cases h : ParticipantUpdate s id input now with
    | error e => exact hc
    | ok r =>
      rw [ParticipantUpdate_ok_certs s id input now r h]
      exact hc
  | deleteParticipant id =>
    show c ∈ (match ParticipantDelete s id with
      | Except.ok s1 => s1
      | Except.error _ => s).certificates ∨ _
    cases h : ParticipantDelete s id with
    | error e => exact Or.inl hc
    | ok s1 =>
      by_cases hp : c.participantID = id
      · exact Or.inr ⟨id, rfl, hp⟩
      · refine Or.inl ?_
        rw [ParticipantDelete_ok_certs s id s1 h]
        exact List.mem_filter.mpr ⟨hc, by simp [hp]⟩

theorem C9_witness :
    witCertOld ∈ (applyOp witStoreHist
      (SystemOp.updateParticipant "P1" { nik := "9999", name := "Alice B" } 11)).certificates ∨
    ∃ pid, SystemOp.updateParticipant "P1" { nik := "9999", name := "Alice B" } 11 =
      SystemOp.deleteParticipant pid ∧ witCertOld.participantID = pid :=
  C9_ledger_append_only witStoreHist
    (SystemOp.updateParticipant "P1" { nik := "9999", name := "Alice B" } 11)
    witCertOld (by decide)

end LifeCert

namespace LifeCert

lemma frIdentitiesCreate_participants (s : Store) (now : Nat) (i : FRIdentity) :
    (frIdentitiesCreate s now i).participants = s.participants := by
  unfold frIdentitiesCreate
  dsimp only
  repeat' split
  all_goals rfl

/-- Fixture for the C6 counterexample: a national id padded with a space.
It passes validation (its trimmed form is non-empty) but the duplicate
check queries the raw value while the trimmed value is persisted. -/
def cexInput6 : RegisterInput :=
  { nik := " 1", name := "Bob", image := [0], imageName := "" }

def cexEnv6a : RegisterEnv :=
  { participantID := "PIDA", frLabel := "CANDA",
    upload := Except.ok { id := "", label := "", externalRef := "" }, now := 1 }

def cexEnv6b : RegisterEnv :=
  { participantID := "PIDB", frLabel := "CANDB",
    upload := Except.ok { id := "", label := "", externalRef := "" }, now := 2 }

def cexStore6 : Store := { participants := [], frIdentities := [], certificates := [] }

/-- The binding request the second (counterexample) registration sends. -/
def cexReq6 : UploadRequest :=
  { label := "CANDB", externalRef := "PIDB", imageName := "registration.jpg",
    image := [0] }

/-- C6 counterexample: with the valid input ` 1` (whitespace-padded NIK),
the first registration succeeds, while the second registration of the very
same national id is NOT rejected with the conflict error and DOES make a
second remote binding call. -/
theorem C6_counterexample :
    (Register cexStore6 cexEnv6a cexInput6).result = Except.ok
      { participantID := "PIDA", frRef := "CANDA", frExternalRef := "PIDA" } ∧
    ¬ ((Register (Register cexStore6 cexEnv6a cexInput6).store cexEnv6b cexInput6).result =
      Except.error SvcError.participantExists) ∧
    (Register (Register cexStore6 cexEnv6a cexInput6).store cexEnv6b cexInput6).trace =
      [TraceEvent.uploadFace cexReq6] := by
  decide

/-- C6 amended: for valid inputs whose NIK carries no surrounding
whitespace, a second registration of the same NIK fails with the conflict
error, mutates nothing and makes no remote binding call; and empty
NIK/name/image are rejected with a validation failure before any side
effect. -/
theorem C6_register_conflict_trimmed (s : Store) (env1 env2 : RegisterEnv)
    (input : RegisterInput) (out : RegisterOutput)
    (htrim : trimSpace input.nik = input.nik)
    (h1 : (Register s env1 input).result = Except.ok out) :
    Register (Register s env1 input).store env2 input =
      { result := Except.error SvcError.participantExists,
        store := (Register s env1 input).store, trace := [] } ∧
    (∀ (s2 : Store) (env : RegisterEnv) (input2 : RegisterInput),
      trimSpace input2.nik = "" ∨ trimSpace input2.name = "" ∨ input2.image = [] →
      (Register s2 env input2).store = s2 ∧ (Register s2 env input2).trace = [] ∧
      ∃ m, (Register s2 env input2).result = Except.error (SvcError.validation m)) := by
  constructor
  · by_cases hA : trimSpace input.nik = ""
    · unfold Register at h1
      rw [if_pos hA] at h1
      simp at h1
    by_cases hB : trimSpace input.name = ""
    · unfold Register at h1
      rw [if_neg hA, if_pos hB] at h1
      simp at h1
    by_cases hC : input.image.isEmpty = true
    · unfold Register at h1
      rw [if_neg hA, if_neg hB, if_pos hC] at h1
      simp at h1
    cases hD : participantsGetByNIK s input.nik with
    | some q0 =>
      unfold Register at h1
      rw [if_neg hA, if_neg hB, if_neg hC, hD] at h1
      simp at h1
    | none =>
      cases hE : env1.upload with
      | error e =>
        unfold Register at h1
        rw [if_neg hA, if_neg hB, if_neg hC, hD, hE] at h1
        simp at h1
      | ok uresp =>
        unfold Register at h1
        rw [if_neg hA, if_neg hB, if_neg hC, hD, hE] at h1
        dsimp only at h1
        split at h1
        · simp at h1
        · rename_i s1 heq
          have hq : ∃ q, participantsGetByNIK (Register s env1 input).store input.nik =
              some q := by
            unfold Register
            rw [if_neg hA, if_neg hB, if_neg hC, hD, hE]
            dsimp only
            rw [heq]
            dsimp only
            unfold participantsGetByNIK
            rw [frIdentitiesCreate_participants,
              (participantsCreate_ok_parts _ _ _ heq).2.2,
              find?_append_of_none _ _ _ hD,
              List.find?_cons_of_pos]
            · exact ⟨_, rfl⟩
            · simp [htrim]
          obtain ⟨q, hq⟩ := hq
          generalize hgen : (Register s env1 input).store = S1
          rw [hgen] at hq
          unfold Register
          rw [if_neg hA, if_neg hB, if_neg hC, hq]
  · intro s2 env input2 hval
    rcases hval with hnik | hname | himg
    · unfold Register
      rw [if_pos hnik]
      exact ⟨rfl, rfl, _, rfl⟩
    · by_cases hn : trimSpace input2.nik = ""
      · unfold Register
        rw [if_pos hn]
        exact ⟨rfl, rfl, _, rfl⟩
      · unfold Register
        rw [if_neg hn, if_pos hname]
        exact ⟨rfl, rfl, _, rfl⟩
    · have hie : input2.image.isEmpty = true := by
        rw [himg]
        rfl
      by_cases hn : trimSpace input2.nik = ""
      · unfold Register
        rw [if_pos hn]
        exact ⟨rfl, rfl, _, rfl⟩
      · by_cases hm : trimSpace input2.name = ""
        · unfold Register
          rw [if_neg hn, if_pos hm]
          exact ⟨rfl, rfl, _, rfl⟩
        · unfold Register
          rw [if_neg hn, if_neg hm, if_pos hie]
          exact ⟨rfl, rfl, _, rfl⟩

/-- Fixture for the C6 amended witness: a NIK without whitespace. -/
def witInput6 : RegisterInput :=
  { nik := "1", name := "Bob", image := [0], imageName := "" }

theorem C6_witness :
    Register (Register cexStore6 cexEnv6a witInput6).store cexEnv6b witInput6 =
      { result := Except.error SvcError.participantExists,
        store := (Register cexStore6 cexEnv6a witInput6).store, trace := [] } ∧
    (∀ (s2 : Store) (env : RegisterEnv) (input2 : RegisterInput),
      trimSpace input2.nik = "" ∨ trimSpace input2.name = "" ∨ input2.image = [] →
      (Register s2 env input2).store = s2 ∧ (Register s2 env input2).trace = [] ∧
      ∃ m, (Register s2 env input2).result = Except.error (SvcError.validation m)) :=
  C6_register_conflict_trimmed cexStore6 cexEnv6a cexEnv6b witInput6
    { participantID := "PIDA", frRef := "CANDA", frExternalRef := "PIDA" }
    (by decide) (by decide)

end LifeCert

namespace LifeCert

/-- Fixture for the C8 counterexample: label `L2` already exists as an
alias mapping owned by participant `A` (created during an earlier
verification), while no participant row carries `L2` as its bound label. -/
def cexParticipantA : Participant :=
  { id := "A", nik := "10", name := "Ann", frLabel := "LA", frExternalRef := "XA",
    createdAt := 1, updatedAt := 1 }

def cexAlias8 : FRIdentity :=
  { label := "L2", participantID := "A", externalRef := "XA2", createdAt := 5 }

def cexStore8 : Store :=
  { participants := [cexParticipantA], frIdentities := [cexAlias8], certificates := [] }

/-- The engine answers the binding call with label `L2` and external
reference `EB`, different from the candidates `CANDB8`/`B`. -/
def cexEnv8 : RegisterEnv :=
  { participantID := "B", frLabel := "CANDB8",
    upload := Except.ok { id := "", label := "L2", externalRef := "EB" }, now := 9 }

def cexInput8 : RegisterInput :=
  { nik := "2", name := "Bee", image := [1], imageName := "x.jpg" }

/-- C8 counterexample: registration succeeds and the Participant row keeps
the engine-returned values, but the label mapping does NOT persist them:
the pre-existing mapping `L2 → A` survives (conflict-do-nothing) and no
mapping row for the new participant `B` exists at all. -/
theorem C8_counterexample :
    (Register cexStore8 cexEnv8 cexInput8).result = Except.ok
      { participantID := "B", frRef := "L2", frExternalRef := "EB" } ∧
    frIdentitiesGetByLabel (Register cexStore8 cexEnv8 cexInput8).store "L2" =
      some cexAlias8 ∧
    (∀ i ∈ (Register cexStore8 cexEnv8 cexInput8).store.frIdentities,
      ¬ i.participantID = "B") := by
  decide

/-- C8 amended: when the engine's binding response carries a (non-blank)
label and external reference and no mapping for that label exists yet, the
engine's values are what gets persisted in the Participant record and in
the label mapping; the candidate label sent is the freshly generated one
and the external reference sent is the generated participant id. -/
theorem C8_engine_values_authoritative (s : Store) (env : RegisterEnv)
    (input : RegisterInput) (out : RegisterOutput) (uresp : UploadResponse)
    (hup : env.upload = Except.ok uresp)
    (hlabel : ¬ trimSpace uresp.label = "")
    (hext : ¬ trimSpace uresp.externalRef = "")
    (hfree : frIdentitiesGetByLabel s uresp.label = none)
    (h1 : (Register s env input).result = Except.ok out) :
    out = { participantID := env.participantID, frRef := uresp.label,
            frExternalRef := uresp.externalRef } ∧
    (∃ p, p ∈ (Register s env input).store.participants ∧
      p.id = env.participantID ∧ p.frLabel = uresp.label ∧
      p.frExternalRef = uresp.externalRef) ∧
    frIdentitiesGetByLabel (Register s env input).store uresp.label =
      some { label := uresp.label, participantID := env.participantID,
             externalRef := uresp.externalRef, createdAt := env.now } ∧
    (Register s env input).trace =
      [TraceEvent.uploadFace
        { label := env.frLabel, externalRef := env.participantID,
          imageName := if trimSpace input.imageName = "" then "registration.jpg"
                       else input.imageName,
          image := input.image }] := by
  by_cases hA : trimSpace input.nik = ""
  · unfold Register at h1
    rw [if_pos hA] at h1
    simp at h1
  by_cases hB : trimSpace input.name = ""
  · unfold Register at h1
    rw [if_neg hA, if_pos hB] at h1
    simp at h1
  by_cases hC : input.image.isEmpty = true
  · unfold Register at h1
    rw [if_neg hA, if_neg hB, if_pos hC] at h1
    simp at h1
  cases hD : participantsGetByNIK s input.nik with
  | some q0 =>
    unfold Register at h1
    rw [if_neg hA, if_neg hB, if_neg hC, hD] at h1
    simp at h1
  | none =>
    unfold Register at h1
    rw [if_neg hA, if_neg hB, if_neg hC, hD, hup] at h1
    dsimp only at h1
    simp only [if_neg hlabel, if_neg hext] at h1
    split at h1
    · simp at h1
    · rename_i s1 heq
      obtain ⟨hc1, hfr1, hp1⟩ := participantsCreate_ok_parts _ _ _ heq
      have hany1 : s1.frIdentities.any (fun j => j.label = uresp.label) = false := by
        rw [hfr1]
        exact getByLabel_none_any_false s uresp.label hfree
      have hreg : Register s env input =
          { result := Except.ok
              { participantID := env.participantID,
                frRef := uresp.label, frExternalRef := uresp.externalRef },
            store :=
              { s1 with frIdentities := s1.frIdentities ++
                  [{ label := uresp.label, participantID := env.participantID,
                     externalRef := uresp.externalRef, createdAt := env.now }] },
            trace :=
              [TraceEvent.uploadFace
                  { label := env.frLabel, externalRef := env.participantID,
                    imageName :=
                      if trimSpace input.imageName = "" then "registration.jpg"
                      else input.imageName,
                    image := input.image }] } := by
        unfold Register
        rw [if_neg hA, if_neg hB, if_neg hC, hD, hup]
        dsimp only
        simp only [if_neg hlabel, if_neg hext]
        rw [heq]
        dsimp only
        rw [frIdentitiesCreate_zero_unseen s1 env.now _ rfl hany1]
      dsimp only at h1
      injection h1 with h1
      rw [hreg]
      refine ⟨h1.symm,
        ⟨{ id := env.participantID, nik := trimSpace input.nik,
           name := trimSpace input.name, frLabel := uresp.label,
           frExternalRef := uresp.externalRef, createdAt := env.now,
           updatedAt := env.now }, ?_, rfl, rfl, rfl⟩, ?_, rfl⟩
      · show _ ∈ s1.participants
        rw [hp1]
        exact List.mem_append_right _ (List.mem_singleton.mpr rfl)
      · unfold frIdentitiesGetByLabel
        dsimp only
        rw [hfr1, find?_append_of_none _ _ _ hfree, List.find?_cons_of_pos]
        simp

end LifeCert

namespace LifeCert

def witStore8 : Store := { participants := [], frIdentities := [], certificates := [] }

def witUResp8 : UploadResponse := { id := "", label := "L9", externalRef := "E9" }

def witEnv8 : RegisterEnv :=
  { participantID := "B", frLabel := "CANDB8",
    upload := Except.ok witUResp8, now := 9 }

def witInput8 : RegisterInput :=
  { nik := "2", name := "Bee", image := [1], imageName := "" }

def witOut8 : RegisterOutput :=
  { participantID := "B", frRef := "L9", frExternalRef := "E9" }

theorem C8_witness :
    witOut8 =
      { participantID := witEnv8.participantID, frRef := witUResp8.label,
        frExternalRef := witUResp8.externalRef } ∧
    (∃ p, p ∈ (Register witStore8 witEnv8 witInput8).store.participants ∧
      p.id = witEnv8.participantID ∧ p.frLabel = witUResp8.label ∧
      p.frExternalRef = witUResp8.externalRef) ∧
    frIdentitiesGetByLabel (Register witStore8 witEnv8 witInput8).store witUResp8.label =
      some
        { label := witUResp8.label, participantID := witEnv8.participantID,
          externalRef := witUResp8.externalRef, createdAt := witEnv8.now } ∧
    (Register witStore8 witEnv8 witInput8).trace =
      [TraceEvent.uploadFace
          { label := witEnv8.frLabel, externalRef := witEnv8.participantID,
            imageName :=
              if trimSpace witInput8.imageName = "" then "registration.jpg"
              else witInput8.imageName,
            image := witInput8.image }] :=
  C8_engine_values_authoritative witStore8 witEnv8 witInput8 witOut8 witUResp8
    rfl (by decide) (by decide) (by decide) (by decide)

end LifeCert
